import Mathlib

/-!
Verification of the TubeLoader job lifecycle engine against its source
(src/server/routes.ts, src/shared/schema.ts).  Pure functions of the source
are embedded as Lean definitions; the stateful job table is modelled as an
association list, and each HTTP route handler / in-flight operation becomes
an explicit state transformer.  The persistent record store itself
(storage.ts, not part of the provided sources) is modelled from the spec as
a simple keyed record table whose update merges the given fields.
-/

set_option maxHeartbeats 400000

namespace TubeLoader

/-- Substring containment, modelling JavaScript `String.prototype.includes`. -/
def containsSub (s pat : String) : Bool :=
  decide (pat.toList <:+: s.toList)

/-- Prefix test, modelling JavaScript `String.prototype.startsWith`. -/
def startsWithStr (s pat : String) : Bool :=
  decide (pat.toList <+: s.toList)

/-- Suffix test, modelling JavaScript `String.prototype.endsWith`. -/
def endsWithStr (s pat : String) : Bool :=
  decide (pat.toList <:+ s.toList)

/-- A persisted download job record, following the `downloadJobs` table of
src/shared/schema.ts (timestamps omitted; they carry no logic). -/
structure Job where
  id : String
  userId : String
  youtubeUrl : String
  videoTitle : Option String
  videoThumbnail : Option String
  format : String
  quality : Option String
  status : String
  progress : Nat
  errorMessage : Option String
  filePath : Option String
  fileSize : Option Nat
  uploadedToNas : Nat
deriving DecidableEq, Repr

/-- The job table, keyed by job id. -/
abbrev Store := List (String × Job)

/-- Modelled from the spec: the persistent record store is "a simple keyed
record table" (storage.getDownloadJob); lookup by job id. -/
def getDownloadJob (s : Store) (jobId : String) : Option Job :=
  (s.find? (fun p => p.1 == jobId)).map (fun p => p.2)

/-- Modelled from the spec: storage.updateDownloadJob merges the supplied
fields into the single record with the given id and returns the store. -/
def updateDownloadJob (s : Store) (jobId : String) (f : Job → Job) : Store :=
  match s with
  | [] => []
  | p :: t => (if p.1 == jobId then (p.1, f p.2) else p) :: updateDownloadJob t jobId f

/-- A response to one of the route handlers' HTTP callers. -/
inductive RouteResp where
  | ok
  | err (status : Nat) (message : String) (details : Option String)
deriving DecidableEq, Repr

/-- A TUS PATCH (chunk) response: HTTP status and optional Upload-Offset
response header. -/
structure PatchResponse where
  status : Nat
  uploadOffset : Option Nat
deriving DecidableEq, Repr

/-- A TUS create (POST) response: HTTP status, status text, optional
Location response header, and response body text. -/
structure CreateResponse where
  status : Nat
  statusText : String
  location : Option String
  body : String
deriving DecidableEq, Repr

/-- Observable actions of an upload run, in program order: a PATCH request
carrying the current offset and chunk length, a persisted progress update,
the persisted completion update (status completed, progress 100,
uploadedToNas 1), the persisted failure update, and deletion of the local
artifact file. -/
inductive Ev where
  | patch (offset len : Nat)
  | persistProgress (status : String) (progress : Nat)
  | persistDone
  | persistFailed (msg : String)
  | unlink
deriving DecidableEq, Repr

/-- The fixed upload chunk size of routes.ts: 5 MiB. -/
def CHUNK_SIZE : Nat := 5 * 1024 * 1024

/-- Offset advance after an accepted chunk (routes.ts lines 568-573): the
server's acknowledged Upload-Offset header when present, else the previous
offset plus the chunk length. -/
def nextOffset (off cs : Nat) (r : PatchResponse) : Nat :=
  match r.uploadOffset with
  | some n => n
  | none => off + cs

/-- Exact-rational model of the JavaScript expression
`Math.round(num / den)` for natural `num`, `den`: round half up. -/
def jsRound (num den : Nat) : Nat :=
  (2 * num + den) / (2 * den)

/-- Manual-upload progress formula (routes.ts line 595):
`Math.round((uploadOffset / fileSize) * 99)`. -/
def uploadProgressManual (fileSize off : Nat) : Nat :=
  jsRound (off * 99) fileSize

/-- Auto-upload progress formula (routes.ts line 1015):
`90 + Math.round((uploadOffset / fileSize) * 9)`. -/
def uploadProgressAuto (fileSize off : Nat) : Nat :=
  90 + jsRound (off * 9) fileSize

/-- The TUS chunked transfer loop shared by the manual upload route
(routes.ts lines 544-609) and the auto upload (lines 964-1028), with fuel
for termination.  Arguments after the progress formula: fuel, chunk index,
current offset.  Returns the emitted events and either the final offset or
the thrown error message. -/
def tusChunkLoop (fileSize : Nat) (resp : Nat → PatchResponse) (pf : Nat → Nat) :
    Nat → Nat → Nat → List Ev × Except String Nat
  | 0, _, off =>
    ([], if off < fileSize then Except.error "out of fuel" else Except.ok off)
  | fuel+1, idx, off =>
    if off < fileSize then
      if (resp idx).status = 204 ∨ (resp idx).status = 200 then
        (Ev.patch off (min CHUNK_SIZE (fileSize - off)) ::
          Ev.persistProgress "uploading"
            (pf (nextOffset off (min CHUNK_SIZE (fileSize - off)) (resp idx))) ::
          (tusChunkLoop fileSize resp pf fuel (idx+1)
            (nextOffset off (min CHUNK_SIZE (fileSize - off)) (resp idx))).1,
         (tusChunkLoop fileSize resp pf fuel (idx+1)
            (nextOffset off (min CHUNK_SIZE (fileSize - off)) (resp idx))).2)
      else
        ([Ev.patch off (min CHUNK_SIZE (fileSize - off))],
         Except.error ("TUS patch failed: " ++ toString (resp idx).status))
    else ([], Except.ok off)

/-- The PATCH offsets actually sent, read off an event list. -/
def patchOffsets (evs : List Ev) : List Nat :=
  evs.filterMap (fun e =>
    match e with
    | Ev.patch off _ => some off
    | _ => none)

/-- The event trace of the chunk loop when the server acknowledges `k`
consecutive chunks without overriding the offset. -/
def ackTrace (pf : Nat → Nat) (fileSize : Nat) : Nat → Nat → List Ev
  | _, 0 => []
  | off, k+1 =>
    Ev.patch off (min CHUNK_SIZE (fileSize - off)) ::
    Ev.persistProgress "uploading" (pf (off + min CHUNK_SIZE (fileSize - off))) ::
    ackTrace pf fileSize (off + min CHUNK_SIZE (fileSize - off)) k

/-- The post-handshake phase of the manual upload route (routes.ts lines
521-641): persist status uploading at progress 0, run the chunk loop; on
success persist completed/100/uploadedToNas and delete the local file, on a
chunk failure persist failed with the error message. -/
def uploadPhaseManual (fileSize : Nat) (resp : Nat → PatchResponse) (fuel : Nat) :
    List Ev :=
  Ev.persistProgress "uploading" 0 ::
    (match tusChunkLoop fileSize resp (uploadProgressManual fileSize) fuel 0 0 with
     | (evs, Except.ok _) => evs ++ [Ev.persistDone, Ev.unlink]
     | (evs, Except.error msg) => evs ++ [Ev.persistFailed ("Upload failed: " ++ msg)])

/-- Strip one trailing slash, modelling `.replace(/\/$/, "")`. -/
def stripTrailingSlash (s : String) : String :=
  if endsWithStr s "/" then s.dropRight 1 else s

/-- Endpoint normalization of routes.ts lines 455-460 and 905-910: trim,
strip one trailing slash, then append "/files/" unless the result already
ends in "/files", in which case append only "/". -/
def normalizeEndpoint (e : String) : String :=
  if endsWithStr (stripTrailingSlash e.trim) "/files" then
    stripTrailingSlash e.trim ++ "/"
  else
    stripTrailingSlash e.trim ++ "/files/"

/-- Scheme upgrade of routes.ts lines 515-516: `.replace(/^http:/, "https:")`
on an absolute location. -/
def forceHttps (s : String) : String :=
  if startsWithStr s "http:" then "https:" ++ s.drop 5 else s

/-- Modelled: the origin (scheme and host) of an absolute URL, as used by
the WHATWG URL constructor when resolving an absolute-path reference. -/
def urlOrigin (base : String) : String :=
  match base.splitOn "://" with
  | s :: r :: _ => s ++ "://" ++ String.mk (r.toList.takeWhile (fun c => c ≠ '/'))
  | _ => base

/-- Modelled: the base directory (everything up to and including the last
slash) of an absolute URL, for resolving path-relative references. -/
def urlBaseDir (base : String) : String :=
  String.mk (base.toList.reverse.dropWhile (fun c => c ≠ '/')).reverse

/-- Modelled: `new URL(loc, base).toString()` for the two reference shapes
the TUS client can receive: an absolute-path reference ("/x") resolves
against the base origin, a path-relative reference against the base
directory. -/
def urlResolve (base loc : String) : String :=
  if startsWithStr loc "/" then urlOrigin base ++ loc else urlBaseDir base ++ loc

/-- Session-URL resolution of routes.ts lines 514-519 and 950-955: an
absolute location has an insecure scheme upgraded, a relative location is
resolved against the (normalized) endpoint. -/
def resolveUploadUrl (endpoint loc : String) : String :=
  if startsWithStr loc "http://" || startsWithStr loc "https://" then forceHttps loc
  else urlResolve endpoint loc

/-- An outgoing HTTP request of the upload client. -/
structure HttpRequest where
  method : String
  url : String
  headers : List (String × String)
deriving DecidableEq, Repr

/-- The TUS creation request of routes.ts lines 479-486 (and 932-939): POST
to the normalized endpoint with the protocol-version, length and metadata
headers.  The base64-encoded filename is taken as given. -/
def tusCreateRequest (endpointCfg : String) (fileSize : Nat) (filenameBase64 : String) :
    HttpRequest :=
  { method := "POST"
    url := normalizeEndpoint endpointCfg
    headers := [("Tus-Resumable", "1.0.0"),
                ("Upload-Length", toString fileSize),
                ("Upload-Metadata", "filename " ++ filenameBase64)] }

/-- Outcome of the creation handshake in the manual upload route
(routes.ts lines 495-519): non-201 or a missing Location header abort with
an error message/detail; otherwise the Location is resolved to an absolute
session URL. -/
def tusCreateHandshake (endpointCfg : String) (r : CreateResponse) :
    Except (String × Option String) String :=
  if r.status ≠ 201 then
    Except.error ("Upload initialization failed (HTTP " ++ toString r.status ++ ")",
      some (if r.body = "" then r.statusText else r.body))
  else
    match r.location with
    | none => Except.error ("Server did not return upload location", none)
    | some loc => Except.ok (resolveUploadUrl (normalizeEndpoint endpointCfg) loc)

/-- A progress update delivered by the fetch client to the state machine
(status is "downloading" or "converting"). -/
structure ProgressUpdate where
  status : String
  progress : Nat
  error : Option String
deriving DecidableEq, Repr

/-- The fetch progress callback of processDownload (routes.ts lines
838-857): re-read the job; drop the update if the job is gone or already
failed; otherwise persist status, progress and error message.  Percentages
are modelled as naturals, so the `Math.round` of the source is the
identity. -/
def progressCallbackAction (s : Store) (jobId : String) (p : ProgressUpdate) : Store :=
  match getDownloadJob s jobId with
  | none => s
  | some j =>
    if j.status = "failed" then s
    else
      updateDownloadJob s jobId (fun j =>
        { j with status := p.status, progress := p.progress, errorMessage := p.error })

/-- The fetch completion update of processDownload (routes.ts lines
861-866): unconditionally persist completed/100 with the artifact path and
size; the job is not re-read first. -/
def fetchCompleteAction (s : Store) (jobId : String) (fp : String) (fsz : Nat) : Store :=
  updateDownloadJob s jobId (fun j =>
    { j with status := "completed", progress := 100,
             filePath := some fp, fileSize := some fsz })

/-- The fetch failure update of processDownload (routes.ts lines 885-889). -/
def fetchFailAction (s : Store) (jobId : String) (msg : String) : Store :=
  updateDownloadJob s jobId (fun j =>
    { j with status := "failed", progress := 0, errorMessage := some msg })

/-- Modelled from the spec: the Progress Parser of the fetch client
(src/server/youtube.ts, not among the provided sources) "must recognize
both and always emit the maximum of previously seen and newly parsed
percentage".  Given the previously seen percentage and the raw parsed
percentages, the emitted sequence. -/
def parserRun : Nat → List Nat → List Nat
  | _, [] => []
  | prev, p :: ps => max prev p :: parserRun (max prev p) ps

/-- The persisted progress value after each delivery of an emitted
percentage to the state machine callback, in order. -/
def progressTrace (s : Store) (jobId : String) : List Nat → List Nat
  | [] => []
  | e :: es =>
    ((getDownloadJob (progressCallbackAction s jobId ⟨"downloading", e, none⟩) jobId).map
      (fun j => j.progress)).getD 0 ::
    progressTrace (progressCallbackAction s jobId ⟨"downloading", e, none⟩) jobId es

/-- POST /api/jobs/:id/cancel (routes.ts lines 303-326): 404 when the job
is missing or owned by another user; otherwise persist failed with the
fixed cancellation message, with no check of the current status. -/
def cancelJobRoute (s : Store) (userId jobId : String) : Store × RouteResp :=
  match getDownloadJob s jobId with
  | none => (s, RouteResp.err 404 "Job not found" none)
  | some j =>
    if j.userId ≠ userId then (s, RouteResp.err 404 "Job not found" none)
    else
      (updateDownloadJob s jobId (fun j =>
        { j with status := "failed", errorMessage := some "Cancelled by user" }),
       RouteResp.ok)

/-- Result of the retry route: the store, the HTTP response, whether the
local artifact file was deleted (cleanupDownloadFile), and whether
processDownload was re-invoked. -/
structure RetryResult where
  store : Store
  resp : RouteResp
  cleanedFile : Bool
  restarted : Bool
deriving DecidableEq, Repr

/-- POST /api/jobs/:id/retry (routes.ts lines 328-359): 404 when missing or
not owned; otherwise, without any check of the current status, delete the
local file, clear progress/error/path/size/uploaded, set queued, and
re-invoke processDownload. -/
def retryJobRoute (s : Store) (userId jobId : String) : RetryResult :=
  match getDownloadJob s jobId with
  | none => ⟨s, RouteResp.err 404 "Job not found" none, false, false⟩
  | some j =>
    if j.userId ≠ userId then ⟨s, RouteResp.err 404 "Job not found" none, false, false⟩
    else
      ⟨updateDownloadJob s jobId (fun j =>
        { j with status := "queued", progress := 0, errorMessage := none,
                 filePath := none, fileSize := none, uploadedToNas := 0 }),
       RouteResp.ok, true, true⟩

/-- Result of the delete route. -/
structure DeleteResult where
  store : Store
  resp : RouteResp
  cleanedFile : Bool
deriving DecidableEq, Repr

/-- DELETE /api/jobs/:id (routes.ts lines 361-383): 404 when missing or not
owned; otherwise delete the local file and remove the record. -/
def deleteJobRoute (s : Store) (userId jobId : String) : DeleteResult :=
  match getDownloadJob s jobId with
  | none => ⟨s, RouteResp.err 404 "Job not found" none, false⟩
  | some j =>
    if j.userId ≠ userId then ⟨s, RouteResp.err 404 "Job not found" none, false⟩
    else
      ⟨s.filter (fun p => p.1 ≠ jobId), RouteResp.ok, true⟩

/-- GET /api/jobs/:id/download (routes.ts lines 385-420): 404 when missing
or not owned, 400 when not completed, 404 when the file is gone, else the
file is streamed; the store is never mutated. -/
def downloadFileRoute (s : Store) (userId jobId : String) (fileExists : Bool) :
    Store × RouteResp :=
  match getDownloadJob s jobId with
  | none => (s, RouteResp.err 404 "Job not found" none)
  | some j =>
    if j.userId ≠ userId then (s, RouteResp.err 404 "Job not found" none)
    else if j.status ≠ "completed" then
      (s, RouteResp.err 400 "Job is not completed yet" none)
    else if ¬ fileExists then (s, RouteResp.err 404 "File not found on server" none)
    else (s, RouteResp.ok)

/-- Probe result of getVideoInfo. -/
structure VideoInfo where
  title : Option String
  thumbnail : Option String
deriving DecidableEq, Repr

/-- Body of POST /api/download. -/
structure DownloadReqBody where
  url : String
  format : String
  quality : Option String
deriving DecidableEq, Repr

/-- Coarse model of Zod's built-in `z.string().url()` shape check; the
domain refinement and format enum below are exact. -/
def zodIsUrl (s : String) : Bool :=
  containsSub s "://"

/-- downloadRequestSchema of src/shared/schema.ts lines 110-116: the URL
must pass the URL shape check and contain "youtube.com" or "youtu.be", and
the format must be "audio" or "video". -/
def downloadRequestParse (r : DownloadReqBody) : Bool :=
  zodIsUrl r.url &&
    (containsSub r.url "youtube.com" || containsSub r.url "youtu.be") &&
    (r.format == "audio" || r.format == "video")

/-- POST /api/download (routes.ts lines 253-301): schema failure returns
400 before anything else; a probe failure returns 400 before any job
record is created; otherwise the job is inserted queued at progress 0 and
processDownload is started (final Bool). -/
def downloadRoute (s : Store) (userId newJobId : String) (r : DownloadReqBody)
    (probe : Except String VideoInfo) : Store × RouteResp × Bool :=
  if ¬ downloadRequestParse r then
    (s, RouteResp.err 400 "Invalid download request" none, false)
  else
    match probe with
    | Except.error msg =>
      (s, RouteResp.err 400 ("Cannot get video info: " ++ msg) none, false)
    | Except.ok info =>
      ((newJobId,
        { id := newJobId, userId := userId, youtubeUrl := r.url,
          videoTitle := info.title, videoThumbnail := info.thumbnail,
          format := r.format, quality := r.quality, status := "queued",
          progress := 0, errorMessage := none, filePath := none,
          fileSize := none, uploadedToNas := 0 }) :: s,
       RouteResp.ok, true)

/-- Store effect of one upload event (the updateDownloadJob call the event
stands for; PATCH and unlink do not touch the job table). -/
def applyEv (jobId : String) (s : Store) : Ev → Store
  | Ev.patch _ _ => s
  | Ev.persistProgress st p =>
    updateDownloadJob s jobId (fun j => { j with status := st, progress := p })
  | Ev.persistDone =>
    updateDownloadJob s jobId (fun j =>
      { j with status := "completed", progress := 100, uploadedToNas := 1 })
  | Ev.persistFailed msg =>
    updateDownloadJob s jobId (fun j =>
      { j with status := "failed", progress := 0, errorMessage := some msg })
  | Ev.unlink => s

def applyEvs (jobId : String) (s : Store) (evs : List Ev) : Store :=
  evs.foldl (applyEv jobId) s

/-- Result of the manual upload route. -/
structure UploadRouteResult where
  store : Store
  resp : RouteResp
  events : List Ev
deriving DecidableEq, Repr

/-- POST /api/jobs/:id/upload-to-nas (routes.ts lines 422-650): ownership,
status, already-uploaded, configuration and file checks, then the creation
handshake; a handshake failure responds 400 with the HTTP status in the
message and touches neither the store nor the file; on success the route
responds ok and runs the chunk phase. -/
def uploadToNasRoute (s : Store) (userId jobId : String) (endpointCfg : Option String)
    (fileExists : Bool) (fileSize : Nat) (create : CreateResponse)
    (resp : Nat → PatchResponse) (fuel : Nat) : UploadRouteResult :=
  match getDownloadJob s jobId with
  | none => ⟨s, RouteResp.err 404 "Job not found" none, []⟩
  | some j =>
    if j.userId ≠ userId then ⟨s, RouteResp.err 404 "Job not found" none, []⟩
    else if j.status ≠ "completed" then
      ⟨s, RouteResp.err 400 "Job is not completed yet" none, []⟩
    else if j.uploadedToNas = 1 then
      ⟨s, RouteResp.err 400 "Already uploaded to NAS" none, []⟩
    else
      match endpointCfg with
      | none => ⟨s, RouteResp.err 400 "TUS server not configured" none, []⟩
      | some ep =>
        if ¬ fileExists then
          ⟨s, RouteResp.err 404 "Downloaded file not found on server" none, []⟩
        else
          match tusCreateHandshake ep create with
          | Except.error e => ⟨s, RouteResp.err 400 e.1 e.2, []⟩
          | Except.ok _ =>
            ⟨applyEvs jobId s (uploadPhaseManual fileSize resp fuel),
             RouteResp.ok, uploadPhaseManual fileSize resp fuel⟩

/-- The auto-upload phase run by autoUploadToNas after a successful
creation handshake (routes.ts lines 957-1051): the chunk loop, then on
success the completion persist followed by local-file deletion; a chunk
failure propagates as the error (there is no failure persist here). -/
def uploadPhaseAuto (fileSize : Nat) (resp : Nat → PatchResponse) (fuel : Nat) :
    List Ev × Except String Unit :=
  match tusChunkLoop fileSize resp (uploadProgressAuto fileSize) fuel 0 0 with
  | (evs, Except.ok _) => (evs ++ [Ev.persistDone, Ev.unlink], Except.ok ())
  | (evs, Except.error msg) => (evs, Except.error msg)

/-- autoUploadToNas (routes.ts lines 895-1052): re-read the job and return
silently unless it is completed and the file exists; persist
uploading/90, then the creation handshake (a non-201 status or missing
Location throws, with the store already at uploading/90), then the chunk
phase. -/
def autoUploadToNas (s : Store) (jobId : String) (fileExists : Bool) (fileSize : Nat)
    (create : CreateResponse) (resp : Nat → PatchResponse) (fuel : Nat) :
    Store × List Ev × Except String Unit :=
  match getDownloadJob s jobId with
  | none => (s, [], Except.ok ())
  | some j =>
    if j.status ≠ "completed" then (s, [], Except.ok ())
    else if ¬ fileExists then (s, [], Except.ok ())
    else
      if create.status ≠ 201 then
        (applyEvs jobId s [Ev.persistProgress "uploading" 90],
         [Ev.persistProgress "uploading" 90],
         Except.error ("TUS create failed: " ++ toString create.status))
      else
        match create.location with
        | none =>
          (applyEvs jobId s [Ev.persistProgress "uploading" 90],
           [Ev.persistProgress "uploading" 90],
           Except.error "No upload URL returned")
        | some _ =>
          (applyEvs jobId s
            (Ev.persistProgress "uploading" 90 :: (uploadPhaseAuto fileSize resp fuel).1),
           Ev.persistProgress "uploading" 90 :: (uploadPhaseAuto fileSize resp fuel).1,
           (uploadPhaseAuto fileSize resp fuel).2)

/-- The user settings consulted by processDownload. -/
structure Settings where
  synologyEndpoint : Option String
  autoUploadToNas : Nat
deriving DecidableEq, Repr

/-- The tail of processDownload after a successful fetch (routes.ts lines
861-892): persist completed/100 with the artifact, then, when an endpoint
is configured and auto-upload enabled, run autoUploadToNas inside a catch
that only logs — any auto-upload error is swallowed and the store is left
as autoUploadToNas left it. -/
def processDownloadFinish (s : Store) (jobId : String) (settings : Option Settings)
    (fileExists : Bool) (fp : String) (fileSize : Nat) (create : CreateResponse)
    (resp : Nat → PatchResponse) (fuel : Nat) : Store :=
  match settings with
  | none => fetchCompleteAction s jobId fp fileSize
  | some st =>
    match st.synologyEndpoint with
    | none => fetchCompleteAction s jobId fp fileSize
    | some _ =>
      if st.autoUploadToNas = 1 then
        (autoUploadToNas (fetchCompleteAction s jobId fp fileSize) jobId fileExists
          fileSize create resp fuel).1
      else fetchCompleteAction s jobId fp fileSize

/-- A sample job record used by concrete witnesses. -/
def mkJob (uid st : String) : Job :=
  { id := "j1", userId := uid, youtubeUrl := "https://youtube.com/watch?v=abc",
    videoTitle := some "t", videoThumbnail := none, format := "video",
    quality := some "720p", status := st, progress := 0, errorMessage := none,
    filePath := none, fileSize := none, uploadedToNas := 0 }

theorem getDownloadJob_update_self (s : Store) (jobId : String) (f : Job → Job) :
    getDownloadJob (updateDownloadJob s jobId f) jobId =
      (getDownloadJob s jobId).map f := by
  induction s with
  | nil => rfl
  | cons a t ih =>
    obtain ⟨k, j⟩ := a
    by_cases h : k = jobId
    · subst h
      simp [getDownloadJob, updateDownloadJob, List.find?_cons]
    · have hb : (k == jobId) = false := beq_eq_false_iff_ne.mpr h
      simpa [getDownloadJob, updateDownloadJob, List.find?_cons, hb, h] using ih

theorem CHUNK_SIZE_eq : CHUNK_SIZE = 5242880 := rfl

theorem tusChunkLoop_ack (fileSize : Nat) (resp : Nat → PatchResponse) (pf : Nat → Nat)
    (hresp : ∀ i, (resp i).status = 204 ∧ (resp i).uploadOffset = none) :
    ∀ fuel off idx, off ≤ fileSize →
      (fileSize - off + CHUNK_SIZE - 1) / CHUNK_SIZE ≤ fuel →
      tusChunkLoop fileSize resp pf fuel idx off =
        (ackTrace pf fileSize off ((fileSize - off + CHUNK_SIZE - 1) / CHUNK_SIZE),
         Except.ok fileSize) := by
  intro fuel
  induction fuel with
  | zero =>
    intro off idx h1 h2
    have hz : (fileSize - off + CHUNK_SIZE - 1) / CHUNK_SIZE = 0 := Nat.le_zero.mp h2
    have hoff : off = fileSize := by
      rw [CHUNK_SIZE_eq] at hz; omega
    subst hoff
    rw [hz]
    simp [tusChunkLoop, ackTrace]
  | succ fuel ih =>
    intro off idx h1 h2
    by_cases hlt : off < fileSize
    · obtain ⟨hs, ho⟩ := hresp idx
      have hcond : (resp idx).status = 204 ∨ (resp idx).status = 200 := Or.inl hs
      have hnext : nextOffset off (min CHUNK_SIZE (fileSize - off)) (resp idx) =
          off + min CHUNK_SIZE (fileSize - off) := by
        simp [nextOffset, ho]
      have h1' : off + min CHUNK_SIZE (fileSize - off) ≤ fileSize := by omega
      have hk : (fileSize - off + CHUNK_SIZE - 1) / CHUNK_SIZE =
          (fileSize - (off + min CHUNK_SIZE (fileSize - off)) + CHUNK_SIZE - 1) /
            CHUNK_SIZE + 1 := by
        rw [CHUNK_SIZE_eq]; omega
      have h2' : (fileSize - (off + min CHUNK_SIZE (fileSize - off)) + CHUNK_SIZE - 1) /
          CHUNK_SIZE ≤ fuel := by omega
      have ihx := ih (off + min CHUNK_SIZE (fileSize - off)) (idx + 1) h1' h2'
      rw [hk, ackTrace]
      show (if off < fileSize then _ else _) = _
      rw [if_pos hlt, if_pos hcond, hnext, ihx]
    · have hoff : off = fileSize := by omega
      have hz : (fileSize - off + CHUNK_SIZE - 1) / CHUNK_SIZE = 0 := by
        rw [CHUNK_SIZE_eq]; omega
      subst hoff
      rw [hz]
      simp [tusChunkLoop, ackTrace]

theorem range_map_shift (a c k : Nat) :
    (List.range (k+1)).map (fun i => a + i * c) =
      a :: (List.range k).map (fun i => a + c + i * c) := by
  rw [List.range_succ_eq_map]
  simp only [List.map_cons, List.map_map, Function.comp]
  congr 1
  · simp
  · apply List.map_congr_left
    intro i _
    simp [Nat.succ_eq_add_one]
    ring

theorem patchOffsets_ackTrace (pf : Nat → Nat) (fileSize : Nat) :
    ∀ k off, off ≤ fileSize →
      k = (fileSize - off + CHUNK_SIZE - 1) / CHUNK_SIZE →
      patchOffsets (ackTrace pf fileSize off k) =
        (List.range k).map (fun i => off + i * CHUNK_SIZE) := by
  intro k
  induction k with
  | zero => intro off _ _; simp [ackTrace, patchOffsets]
  | succ k ih =>
    intro off h1 hk
    have hlt : off < fileSize := by
      rw [CHUNK_SIZE_eq] at hk; omega
    match k, ih with
    | 0, _ =>
      have hone : fileSize - off ≤ CHUNK_SIZE := by
        rw [CHUNK_SIZE_eq] at hk ⊢; omega
      simp [ackTrace, patchOffsets, List.range_succ]
    | k'+1, ih =>
      have hcs : min CHUNK_SIZE (fileSize - off) = CHUNK_SIZE := by
        rw [CHUNK_SIZE_eq] at hk ⊢; omega
      have h1' : off + CHUNK_SIZE ≤ fileSize := by
        rw [CHUNK_SIZE_eq] at hk ⊢; omega
      have hk' : k' + 1 = (fileSize - (off + CHUNK_SIZE) + CHUNK_SIZE - 1) / CHUNK_SIZE := by
        rw [CHUNK_SIZE_eq] at hk ⊢; omega
      have ihx := ih (off + CHUNK_SIZE) h1' hk'
      simp only [patchOffsets] at ihx ⊢
      rw [ackTrace]
      simp only [hcs, List.filterMap_cons]
      rw [ihx, range_map_shift off CHUNK_SIZE (k' + 1)]

theorem ackTrace_persist_bound (pf : Nat → Nat) (fileSize : Nat) :
    ∀ k off st p, off ≤ fileSize →
      Ev.persistProgress st p ∈ ackTrace pf fileSize off k →
      ∃ o, o ≤ fileSize ∧ p = pf o := by
  intro k
  induction k with
  | zero => intro off st p _ hmem; simp [ackTrace] at hmem
  | succ k ih =>
    intro off st p h1 hmem
    rw [ackTrace] at hmem
    rcases List.mem_cons.mp hmem with h | hmem2
    · exact absurd h (by simp)
    rcases List.mem_cons.mp hmem2 with h | h
    · refine ⟨off + min CHUNK_SIZE (fileSize - off), by omega, ?_⟩
      simp only [Ev.persistProgress.injEq] at h
      exact h.2
    · exact ih (off + min CHUNK_SIZE (fileSize - off)) st p (by omega) h

theorem uploadProgressManual_le (fileSize o : Nat) (hN : 0 < fileSize)
    (ho : o ≤ fileSize) : uploadProgressManual fileSize o ≤ 99 := by
  have h : 2 * (o * 99) + fileSize < 100 * (2 * fileSize) := by omega
  have := (Nat.div_lt_iff_lt_mul (by omega : 0 < 2 * fileSize)).mpr h
  simpa [uploadProgressManual, jsRound, Nat.lt_succ_iff] using Nat.lt_succ_iff.mp this

theorem uploadProgressAuto_le (fileSize o : Nat) (hN : 0 < fileSize)
    (ho : o ≤ fileSize) : uploadProgressAuto fileSize o ≤ 99 := by
  have h : 2 * (o * 9) + fileSize < 10 * (2 * fileSize) := by omega
  have h2 := (Nat.div_lt_iff_lt_mul (by omega : 0 < 2 * fileSize)).mpr h
  have h3 : (2 * (o * 9) + fileSize) / (2 * fileSize) ≤ 9 := Nat.lt_succ_iff.mp h2
  simp only [uploadProgressAuto, jsRound]
  omega

theorem containsSub_middle (a t b : String) : containsSub (a ++ t ++ b) t = true := by
  unfold containsSub
  apply decide_eq_true
  refine ⟨a.toList, b.toList, ?_⟩
  have h1 : (a ++ t ++ b).toList = a.toList ++ t.toList ++ b.toList := by
    simp [String.toList, String.data_append]
  rw [h1]

theorem endsWithStr_append (a t : String) : endsWithStr (a ++ t) t = true := by
  unfold endsWithStr
  apply decide_eq_true
  have h1 : (a ++ t).toList = a.toList ++ t.toList := by
    simp [String.toList, String.data_append]
  rw [h1]
  exact List.suffix_append a.toList t.toList

theorem normalizeEndpoint_endsWith (e : String) :
    endsWithStr (normalizeEndpoint e) "/files/" = true := by
  unfold normalizeEndpoint
  by_cases h : endsWithStr (stripTrailingSlash e.trim) "/files" = true
  · rw [if_pos h]
    unfold endsWithStr at h ⊢
    apply decide_eq_true
    rw [decide_eq_true_iff] at h
    obtain ⟨u, hu⟩ := h
    refine ⟨u, ?_⟩
    have h1 : (stripTrailingSlash e.trim ++ "/").toList =
        (stripTrailingSlash e.trim).toList ++ "/".toList := by
      simp [String.toList, String.data_append]
    rw [h1, ← hu]
    have h2 : ("/files/" : String).toList = ("/files" : String).toList ++ ("/" : String).toList := rfl
    rw [h2, List.append_assoc]
  · rw [if_neg h]
    exact endsWithStr_append _ _

theorem parserRun_head_ge (q : Nat) (l : List Nat) (x : Nat)
    (hx : (parserRun q l).head? = some x) : q ≤ x := by
  cases l with
  | nil => simp [parserRun] at hx
  | cons a as =>
    simp [parserRun] at hx
    omega

theorem parserRun_chain (l : List Nat) : ∀ q : Nat, List.Chain' (· ≤ ·) (parserRun q l) := by
  induction l with
  | nil => intro q; simp [parserRun]
  | cons a as ih =>
    intro q
    rw [parserRun, List.chain'_cons']
    exact ⟨fun y hy => parserRun_head_ge (max q a) as y hy, ih (max q a)⟩

theorem progressTrace_eq (jobId : String) :
    ∀ (es : List Nat) (s : Store) (j : Job), getDownloadJob s jobId = some j →
      j.status ≠ "failed" → progressTrace s jobId es = es := by
  intro es
  induction es with
  | nil => intro s j _ _; rfl
  | cons e es ih =>
    intro s j hget hst
    have hact : progressCallbackAction s jobId ⟨"downloading", e, none⟩ =
        updateDownloadJob s jobId (fun j =>
          { j with status := "downloading", progress := e, errorMessage := none }) := by
      unfold progressCallbackAction
      rw [hget]
      simp [hst]
    have hget2 : getDownloadJob (progressCallbackAction s jobId ⟨"downloading", e, none⟩) jobId =
        some { j with status := "downloading", progress := e, errorMessage := none } := by
      rw [hact, getDownloadJob_update_self, hget]
      rfl
    rw [progressTrace, hget2]
    simp only [Option.map_some', Option.getD_some]
    rw [ih _ _ hget2 (by simp)]

theorem http_toList : ("http:" : String).toList = ['h','t','t','p',':'] := rfl

theorem https_toList : ("https://" : String).toList = ['h','t','t','p','s',':','/','/'] := rfl

theorem startsWith_http_of_http_slash (loc : String)
    (h : startsWithStr loc "http://" = true) : startsWithStr loc "http:" = true := by
  unfold startsWithStr at h
  unfold startsWithStr
  apply decide_eq_true
  rw [decide_eq_true_iff] at h
  exact List.IsPrefix.trans (by decide) h

theorem not_http_prefix_of_https (loc : String)
    (h : startsWithStr loc "https://" = true) : startsWithStr loc "http:" = false := by
  unfold startsWithStr at h
  unfold startsWithStr
  apply decide_eq_false
  rw [decide_eq_true_iff] at h
  intro hp
  obtain ⟨t, ht⟩ := h
  obtain ⟨u, hu⟩ := hp
  rw [← ht] at hu
  rw [http_toList, https_toList] at hu
  simp at hu

/-- C9: `cancel(jobId)` on an existing job owned by the caller
unconditionally persists status `failed` with the fixed message
"Cancelled by user", whatever the current status — including `completed`. -/
theorem c9_cancel_unconditional (s : Store) (userId jobId : String) (j : Job)
    (hget : getDownloadJob s jobId = some j) (hown : j.userId = userId) :
    (cancelJobRoute s userId jobId).2 = RouteResp.ok ∧
    (getDownloadJob (cancelJobRoute s userId jobId).1 jobId).map (fun j => j.status) =
      some "failed" ∧
    (getDownloadJob (cancelJobRoute s userId jobId).1 jobId).map (fun j => j.errorMessage) =
      some (some "Cancelled by user") := by
  unfold cancelJobRoute
  rw [hget]
  simp [hown, getDownloadJob_update_self, hget]

/-- Witness for C9 at a concrete input: a completed job is overwritten to
failed by cancel. -/
theorem c9_witness :
    (cancelJobRoute [("j1", mkJob "u1" "completed")] "u1" "j1").2 = RouteResp.ok ∧
    (getDownloadJob (cancelJobRoute [("j1", mkJob "u1" "completed")] "u1" "j1").1 "j1").map
      (fun j => j.status) = some "failed" ∧
    (getDownloadJob (cancelJobRoute [("j1", mkJob "u1" "completed")] "u1" "j1").1 "j1").map
      (fun j => j.errorMessage) = some (some "Cancelled by user") :=
  c9_cancel_unconditional [("j1", mkJob "u1" "completed")] "u1" "j1"
    (mkJob "u1" "completed") (by decide) rfl

/-- C10: every per-job operation (cancel, retry, delete, file download)
responds 404 "Job not found" and leaves the store unchanged whenever the
job is missing or owned by a different user, so a non-owner's request never
mutates the owner's job. -/
theorem c10_ownership_guard (s : Store) (userId jobId : String) (fileExists : Bool)
    (h : ∀ j, getDownloadJob s jobId = some j → j.userId ≠ userId) :
    cancelJobRoute s userId jobId = (s, RouteResp.err 404 "Job not found" none) ∧
    retryJobRoute s userId jobId = ⟨s, RouteResp.err 404 "Job not found" none, false, false⟩ ∧
    deleteJobRoute s userId jobId = ⟨s, RouteResp.err 404 "Job not found" none, false⟩ ∧
    downloadFileRoute s userId jobId fileExists =
      (s, RouteResp.err 404 "Job not found" none) := by
  cases hg : getDownloadJob s jobId with
  | none =>
    simp [cancelJobRoute, retryJobRoute, deleteJobRoute, downloadFileRoute, hg]
  | some j =>
    have hne := h j hg
    simp [cancelJobRoute, retryJobRoute, deleteJobRoute, downloadFileRoute, hg, hne]

/-- Witness for C10 at a concrete input: a stranger's cancel/retry/delete/
download of u1's job all 404 without mutation. -/
theorem c10_witness :
    cancelJobRoute [("j1", mkJob "u1" "downloading")] "u2" "j1" =
      ([("j1", mkJob "u1" "downloading")], RouteResp.err 404 "Job not found" none) ∧
    retryJobRoute [("j1", mkJob "u1" "downloading")] "u2" "j1" =
      ⟨[("j1", mkJob "u1" "downloading")], RouteResp.err 404 "Job not found" none,
        false, false⟩ ∧
    deleteJobRoute [("j1", mkJob "u1" "downloading")] "u2" "j1" =
      ⟨[("j1", mkJob "u1" "downloading")], RouteResp.err 404 "Job not found" none, false⟩ ∧
    downloadFileRoute [("j1", mkJob "u1" "downloading")] "u2" "j1" true =
      ([("j1", mkJob "u1" "downloading")], RouteResp.err 404 "Job not found" none) :=
  c10_ownership_guard [("j1", mkJob "u1" "downloading")] "u2" "j1" true
    (by intro j hj; simp [getDownloadJob, mkJob] at hj; rw [← hj]; decide)

/-- Counterexample to C4 as stated: retry of a job whose status is
`completed` (not `failed`) is accepted (HTTP success), mutates the record
to `queued`, and restarts the pipeline, instead of being rejected with the
record unchanged. -/
theorem c4_counterexample :
    (retryJobRoute [("j1", mkJob "u1" "completed")] "u1" "j1").resp = RouteResp.ok ∧
    (getDownloadJob (retryJobRoute [("j1", mkJob "u1" "completed")] "u1" "j1").store
      "j1").map (fun j => j.status) = some "queued" ∧
    (retryJobRoute [("j1", mkJob "u1" "completed")] "u1" "j1").restarted = true ∧
    (retryJobRoute [("j1", mkJob "u1" "completed")] "u1" "j1").store ≠
      [("j1", mkJob "u1" "completed")] := by
  refine ⟨rfl, rfl, rfl, ?_⟩
  decide

/-- C4 (amended): retry of an existing job owned by the caller is accepted
regardless of its current status; it deletes the local artifact file,
clears progress, errorMessage, filePath, fileSize and the uploaded flag,
sets status `queued`, and re-invokes the orchestrator. -/
theorem c4_amended_retry (s : Store) (userId jobId : String) (j : Job)
    (hget : getDownloadJob s jobId = some j) (hown : j.userId = userId) :
    retryJobRoute s userId jobId =
      ⟨updateDownloadJob s jobId (fun j =>
          { j with status := "queued", progress := 0, errorMessage := none,
                   filePath := none, fileSize := none, uploadedToNas := 0 }),
        RouteResp.ok, true, true⟩ ∧
    getDownloadJob (retryJobRoute s userId jobId).store jobId =
      some { j with status := "queued", progress := 0, errorMessage := none,
                    filePath := none, fileSize := none, uploadedToNas := 0 } := by
  have h1 : retryJobRoute s userId jobId =
      ⟨updateDownloadJob s jobId (fun j =>
          { j with status := "queued", progress := 0, errorMessage := none,
                   filePath := none, fileSize := none, uploadedToNas := 0 }),
        RouteResp.ok, true, true⟩ := by
    unfold retryJobRoute
    rw [hget]
    simp [hown]
  refine ⟨h1, ?_⟩
  rw [h1]
  show getDownloadJob (updateDownloadJob s jobId _) jobId = _
  rw [getDownloadJob_update_self, hget]
  rfl

/-- Witness for the amended C4 at a concrete input: retry of a failed job. -/
theorem c4_amended_witness :
    getDownloadJob (retryJobRoute [("j1", mkJob "u1" "failed")] "u1" "j1").store "j1" =
      some { mkJob "u1" "failed" with
              status := "queued", progress := 0, errorMessage := none,
              filePath := none, fileSize := none, uploadedToNas := 0 } :=
  (c4_amended_retry [("j1", mkJob "u1" "failed")] "u1" "j1" (mkJob "u1" "failed")
    (by decide) rfl).2

/-- Counterexample to C1 as stated: after cancel persists `failed`, the
fetch completion update (which does not re-read the job) overwrites the
status with `completed`. -/
theorem c1_counterexample :
    (getDownloadJob (cancelJobRoute [("j1", mkJob "u1" "downloading")] "u1" "j1").1
      "j1").map (fun j => j.status) = some "failed" ∧
    (getDownloadJob
        (fetchCompleteAction (cancelJobRoute [("j1", mkJob "u1" "downloading")] "u1" "j1").1
          "j1" "/downloads/j1.mp4" 100) "j1").map (fun j => j.status) = some "completed" ∧
    ("completed" : String) ≠ "failed" := by
  refine ⟨rfl, rfl, ?_⟩
  decide

/-- C1 (amended): the fetch progress callback re-reads the job before each
update and drops the update whenever the job is missing or already
`failed`, leaving the store unchanged; the fetch completion update and the
upload chunk updates perform no such re-read. -/
theorem c1_amended_callback_drops (s : Store) (jobId : String) (p : ProgressUpdate)
    (h : ∀ j, getDownloadJob s jobId = some j → j.status = "failed") :
    progressCallbackAction s jobId p = s := by
  unfold progressCallbackAction
  cases hg : getDownloadJob s jobId with
  | none => rfl
  | some j => simp [h j hg]

/-- Witness for the amended C1 at a concrete input: a progress callback for
a cancelled (failed) job is dropped. -/
theorem c1_amended_witness :
    progressCallbackAction [("j1", mkJob "u1" "failed")] "j1" ⟨"downloading", 50, none⟩ =
      [("j1", mkJob "u1" "failed")] :=
  c1_amended_callback_drops [("j1", mkJob "u1" "failed")] "j1" ⟨"downloading", 50, none⟩
    (by intro j hj; simp [getDownloadJob, mkJob] at hj; rw [← hj])

/-- C2: for any sequence of raw percentages parsed in one phase, the
progress parser emits the running maximum, and the state machine persists
each emitted value, so the persisted progress values are non-decreasing;
in particular raw callbacks 40 then 25 leave persisted progress 40. -/
theorem c2_progress_monotone (s : Store) (jobId : String) (j : Job) (raws : List Nat)
    (hget : getDownloadJob s jobId = some j) (hst : j.status ≠ "failed") :
    List.Chain' (· ≤ ·) (progressTrace s jobId (parserRun 0 raws)) ∧
    progressTrace s jobId (parserRun 0 [40, 25]) = [40, 40] := by
  constructor
  · rw [progressTrace_eq jobId (parserRun 0 raws) s j hget hst]
    exact parserRun_chain raws 0
  · rw [progressTrace_eq jobId (parserRun 0 [40, 25]) s j hget hst]
    rfl

/-- Witness for C2 at a concrete input. -/
theorem c2_witness :
    List.Chain' (· ≤ ·)
      (progressTrace [("j1", mkJob "u1" "downloading")] "j1" (parserRun 0 [40, 25])) ∧
    progressTrace [("j1", mkJob "u1" "downloading")] "j1" (parserRun 0 [40, 25]) =
      [40, 40] :=
  c2_progress_monotone [("j1", mkJob "u1" "downloading")] "j1"
    (mkJob "u1" "downloading") [40, 25] (by decide) (by decide)

/-- C8: a submission whose URL does not contain the supported domain
family, or whose format is not audio/video, is rejected 400 with no job
created; a submission whose metadata probe fails is rejected 400 with a
descriptive error, still with no job created. -/
theorem c8_validation_rejects (s : Store) (userId newJobId : String) (r : DownloadReqBody)
    (probe : Except String VideoInfo) :
    ((containsSub r.url "youtube.com" = false ∧ containsSub r.url "youtu.be" = false) →
      downloadRoute s userId newJobId r probe =
        (s, RouteResp.err 400 "Invalid download request" none, false)) ∧
    ((r.format ≠ "audio" ∧ r.format ≠ "video") →
      downloadRoute s userId newJobId r probe =
        (s, RouteResp.err 400 "Invalid download request" none, false)) ∧
    (∀ msg, downloadRequestParse r = true → probe = Except.error msg →
      downloadRoute s userId newJobId r probe =
        (s, RouteResp.err 400 ("Cannot get video info: " ++ msg) none, false)) := by
  refine ⟨?_, ?_, ?_⟩
  · rintro ⟨h1, h2⟩
    have hp : downloadRequestParse r = false := by
      simp [downloadRequestParse, h1, h2]
    simp [downloadRoute, hp]
  · rintro ⟨h1, h2⟩
    have hb1 : (r.format == "audio") = false := beq_eq_false_iff_ne.mpr h1
    have hb2 : (r.format == "video") = false := beq_eq_false_iff_ne.mpr h2
    have hp : downloadRequestParse r = false := by
      simp [downloadRequestParse, hb1, hb2]
    simp [downloadRoute, hp]
  · intro msg hp hprobe
    simp [downloadRoute, hp, hprobe]

/-- Witness for C8 at concrete inputs: an unsupported domain, an
unsupported format, and a failing probe, each rejected with the store
unchanged. -/
theorem c8_witness :
    downloadRoute [] "u1" "j9" ⟨"https://vimeo.com/123", "video", none⟩
        (Except.ok ⟨some "t", none⟩) =
      ([], RouteResp.err 400 "Invalid download request" none, false) ∧
    downloadRoute [] "u1" "j9" ⟨"https://youtube.com/watch?v=abc", "gif", none⟩
        (Except.ok ⟨some "t", none⟩) =
      ([], RouteResp.err 400 "Invalid download request" none, false) ∧
    downloadRoute [] "u1" "j9" ⟨"https://youtube.com/watch?v=abc", "video", none⟩
        (Except.error "Video unavailable") =
      ([], RouteResp.err 400 ("Cannot get video info: " ++ "Video unavailable") none,
        false) :=
  ⟨(c8_validation_rejects [] "u1" "j9" ⟨"https://vimeo.com/123", "video", none⟩
      (Except.ok ⟨some "t", none⟩)).1 ⟨by decide, by decide⟩,
   (c8_validation_rejects [] "u1" "j9" ⟨"https://youtube.com/watch?v=abc", "gif", none⟩
      (Except.ok ⟨some "t", none⟩)).2.1 ⟨by decide, by decide⟩,
   (c8_validation_rejects [] "u1" "j9" ⟨"https://youtube.com/watch?v=abc", "video", none⟩
      (Except.error "Video unavailable")).2.2 "Video unavailable" (by decide) rfl⟩

/-- C5: for a file of N > 0 bytes uploaded in 5 MiB chunks, when the server
acknowledges every chunk without overriding the offset, the client issues
exactly ceil(N/C) PATCH requests, carrying offsets 0, C, 2C, ..., and the
loop terminates with final offset N (the offset having advanced by the
chunk length whenever no acknowledged-offset header was present). -/
theorem c5_chunking (fileSize fuel : Nat) (resp : Nat → PatchResponse) (pf : Nat → Nat)
    (hN : 0 < fileSize)
    (hresp : ∀ i, (resp i).status = 204 ∧ (resp i).uploadOffset = none)
    (hfuel : (fileSize + CHUNK_SIZE - 1) / CHUNK_SIZE ≤ fuel) :
    (tusChunkLoop fileSize resp pf fuel 0 0).2 = Except.ok fileSize ∧
    patchOffsets (tusChunkLoop fileSize resp pf fuel 0 0).1 =
      (List.range ((fileSize + CHUNK_SIZE - 1) / CHUNK_SIZE)).map
        (fun i => i * CHUNK_SIZE) ∧
    (patchOffsets (tusChunkLoop fileSize resp pf fuel 0 0).1).length =
      (fileSize + CHUNK_SIZE - 1) / CHUNK_SIZE := by
  have h0 : (fileSize - 0 + CHUNK_SIZE - 1) / CHUNK_SIZE =
      (fileSize + CHUNK_SIZE - 1) / CHUNK_SIZE := by simp
  have hrun := tusChunkLoop_ack fileSize resp pf hresp fuel 0 0 (Nat.zero_le _)
    (by rw [h0]; exact hfuel)
  have hoffs := patchOffsets_ackTrace pf fileSize
    ((fileSize + CHUNK_SIZE - 1) / CHUNK_SIZE) 0 (Nat.zero_le _) (by rw [h0])
  rw [hrun, h0] at *
  refine ⟨rfl, ?_, ?_⟩
  · rw [hoffs]
    apply List.map_congr_left
    intro i _
    omega
  · rw [hoffs]
    simp

/-- Witness for C5 at the concrete 100 MiB scenario: exactly 20 chunks and
final offset 104857600. -/
theorem c5_witness :
    (tusChunkLoop 104857600 (fun _ => ⟨204, none⟩) (fun _ => 0) 20 0 0).2 =
      Except.ok 104857600 ∧
    (patchOffsets (tusChunkLoop 104857600 (fun _ => ⟨204, none⟩) (fun _ => 0) 20 0 0).1).length
      = 20 := by
  have h := c5_chunking 104857600 20 (fun _ => ⟨204, none⟩) (fun _ => 0) (by decide)
    (fun i => ⟨rfl, rfl⟩) (by decide)
  refine ⟨h.1, ?_⟩
  rw [h.2.2]
  rfl

/-- Counterexample to C6 as stated: with a 10 MiB file, after the first
5 MiB chunk the persisted progress is Math.round(0.5 * 99) = 50, not
floor(0.5 * 99) = 49; moreover the completed/100 record (persistDone)
precedes the local-file deletion (unlink), not the other way round. -/
theorem c6_counterexample :
    uploadPhaseManual 10485760 (fun _ => ⟨204, none⟩) 2 =
      [Ev.persistProgress "uploading" 0,
       Ev.patch 0 5242880, Ev.persistProgress "uploading" 50,
       Ev.patch 5242880 5242880, Ev.persistProgress "uploading" 99,
       Ev.persistDone, Ev.unlink] ∧
    (5242880 * 99) / 10485760 = 49 ∧ (50 : Nat) ≠ 49 := by
  refine ⟨by decide, by decide, by decide⟩

/-- C6 (amended): during an upload the progress persisted after each chunk
is Math.round(offset/total * 99) for the manual route and
90 + Math.round(offset/total * 9) for the auto-upload; every such value is
at most 99, and 100 is recorded exactly by the completion update, which is
emitted immediately before (not after) the local artifact is deleted. -/
theorem c6_amended_progress (fileSize fuel : Nat) (resp : Nat → PatchResponse)
    (hN : 0 < fileSize)
    (hresp : ∀ i, (resp i).status = 204 ∧ (resp i).uploadOffset = none)
    (hfuel : (fileSize + CHUNK_SIZE - 1) / CHUNK_SIZE ≤ fuel) :
    uploadPhaseManual fileSize resp fuel =
      Ev.persistProgress "uploading" 0 ::
        (ackTrace (uploadProgressManual fileSize) fileSize 0
            ((fileSize + CHUNK_SIZE - 1) / CHUNK_SIZE) ++
          [Ev.persistDone, Ev.unlink]) ∧
    (∀ st p, Ev.persistProgress st p ∈ uploadPhaseManual fileSize resp fuel → p ≤ 99) ∧
    (uploadPhaseAuto fileSize resp fuel).1 =
      ackTrace (uploadProgressAuto fileSize) fileSize 0
          ((fileSize + CHUNK_SIZE - 1) / CHUNK_SIZE) ++
        [Ev.persistDone, Ev.unlink] ∧
    (∀ st p, Ev.persistProgress st p ∈ (uploadPhaseAuto fileSize resp fuel).1 → p ≤ 99) := by
  have h0 : (fileSize - 0 + CHUNK_SIZE - 1) / CHUNK_SIZE =
      (fileSize + CHUNK_SIZE - 1) / CHUNK_SIZE := by simp
  have hrunM := tusChunkLoop_ack fileSize resp (uploadProgressManual fileSize) hresp
    fuel 0 0 (Nat.zero_le _) (by rw [h0]; exact hfuel)
  have hrunA := tusChunkLoop_ack fileSize resp (uploadProgressAuto fileSize) hresp
    fuel 0 0 (Nat.zero_le _) (by rw [h0]; exact hfuel)
  rw [h0] at hrunM hrunA
  have htrM : uploadPhaseManual fileSize resp fuel =
      Ev.persistProgress "uploading" 0 ::
        (ackTrace (uploadProgressManual fileSize) fileSize 0
            ((fileSize + CHUNK_SIZE - 1) / CHUNK_SIZE) ++
          [Ev.persistDone, Ev.unlink]) := by
    unfold uploadPhaseManual
    rw [hrunM]
  have htrA : (uploadPhaseAuto fileSize resp fuel).1 =
      ackTrace (uploadProgressAuto fileSize) fileSize 0
          ((fileSize + CHUNK_SIZE - 1) / CHUNK_SIZE) ++
        [Ev.persistDone, Ev.unlink] := by
    unfold uploadPhaseAuto
    rw [hrunA]
  refine ⟨htrM, ?_, htrA, ?_⟩
  · intro st p hmem
    rw [htrM] at hmem
    rcases List.mem_cons.mp hmem with h | h
    · have hp : p = 0 := by
        simp only [Ev.persistProgress.injEq] at h
        exact h.2
      omega
    · rcases List.mem_append.mp h with h | h
      · obtain ⟨o, ho, hp⟩ := ackTrace_persist_bound (uploadProgressManual fileSize)
          fileSize ((fileSize + CHUNK_SIZE - 1) / CHUNK_SIZE) 0 st p (Nat.zero_le _) h
        rw [hp]
        exact uploadProgressManual_le fileSize o hN ho
      · simp at h
  · intro st p hmem
    rw [htrA] at hmem
    rcases List.mem_append.mp hmem with h | h
    · obtain ⟨o, ho, hp⟩ := ackTrace_persist_bound (uploadProgressAuto fileSize)
        fileSize ((fileSize + CHUNK_SIZE - 1) / CHUNK_SIZE) 0 st p (Nat.zero_le _) h
      rw [hp]
      exact uploadProgressAuto_le fileSize o hN ho
    · simp at h

/-- Witness for the amended C6 at a concrete input: the 10 MiB two-chunk
run, whose persisted progress values 0, 50, 99 all stay at most 99 and
whose completion update precedes the deletion. -/
theorem c6_amended_witness :
    uploadPhaseManual 10485760 (fun _ => ⟨204, none⟩) 2 =
      Ev.persistProgress "uploading" 0 ::
        (ackTrace (uploadProgressManual 10485760) 10485760 0
            ((10485760 + CHUNK_SIZE - 1) / CHUNK_SIZE) ++
          [Ev.persistDone, Ev.unlink]) ∧
    (∀ st p, Ev.persistProgress st p ∈ uploadPhaseManual 10485760 (fun _ => ⟨204, none⟩) 2 →
      p ≤ 99) :=
  ⟨(c6_amended_progress 10485760 2 (fun _ => ⟨204, none⟩) (by decide)
      (fun i => ⟨rfl, rfl⟩) (by decide)).1,
   (c6_amended_progress 10485760 2 (fun _ => ⟨204, none⟩) (by decide)
      (fun i => ⟨rfl, rfl⟩) (by decide)).2.1⟩

/-- Counterexample to C3 as stated: with the create request answered HTTP
500, the auto-upload path leaves the job persisted as `uploading` (progress
90), not `failed` — the thrown error is swallowed by processDownload's
catch — and the manual route leaves the record untouched (`completed`),
reporting the failure only in its HTTP response. -/
theorem c3_counterexample :
    ((getDownloadJob (processDownloadFinish [("j1", mkJob "u1" "downloading")] "j1"
          (some ⟨some "https://nas.example", 1⟩) true "/downloads/j1.mp4" 100
          ⟨500, "Internal Server Error", none, ""⟩ (fun _ => ⟨204, none⟩) 1) "j1").map
        (fun j => (j.status, j.progress)) = some ("uploading", 90) ∧
      ("uploading" : String) ≠ "failed") ∧
    ((uploadToNasRoute [("j1", mkJob "u1" "completed")] "u1" "j1"
        (some "https://nas.example") true 100 ⟨500, "Internal Server Error", none, ""⟩
        (fun _ => ⟨204, none⟩) 1).store = [("j1", mkJob "u1" "completed")] ∧
      (mkJob "u1" "completed").status ≠ "failed") := by
  refine ⟨⟨by decide, by decide⟩, ⟨by decide, by decide⟩⟩

/-- C3 (amended): when the create request returns a non-success status, no
chunk is sent and the local artifact is preserved in both upload paths, and
the HTTP status is surfaced as error detail; but the job is not moved to
`failed`: the manual route leaves the record untouched and answers 400 with
the status in the message, while the auto-upload path leaves the job
persisted as `uploading` at progress 90, its thrown error (carrying the
status) being swallowed by the orchestrator. -/
theorem c3_amended_create_failure (s : Store) (userId jobId : String) (j : Job)
    (ep fp : String) (fileSize fuel : Nat) (create : CreateResponse)
    (resp : Nat → PatchResponse)
    (hcreate : create.status ≠ 201)
    (hget : getDownloadJob s jobId = some j) (hown : j.userId = userId)
    (hst : j.status = "completed") (hup : j.uploadedToNas ≠ 1) :
    uploadToNasRoute s userId jobId (some ep) true fileSize create resp fuel =
      ⟨s, RouteResp.err 400
          ("Upload initialization failed (HTTP " ++ toString create.status ++ ")")
          (some (if create.body = "" then create.statusText else create.body)), []⟩ ∧
    containsSub ("Upload initialization failed (HTTP " ++ toString create.status ++ ")")
      (toString create.status) = true ∧
    (autoUploadToNas (fetchCompleteAction s jobId fp fileSize) jobId true fileSize
        create resp fuel).2.2 =
      Except.error ("TUS create failed: " ++ toString create.status) ∧
    (autoUploadToNas (fetchCompleteAction s jobId fp fileSize) jobId true fileSize
        create resp fuel).2.1 = [Ev.persistProgress "uploading" 90] ∧
    (getDownloadJob (processDownloadFinish s jobId (some ⟨some ep, 1⟩) true fp fileSize
        create resp fuel) jobId).map (fun j => (j.status, j.progress)) =
      some ("uploading", 90) := by
  have hhs : tusCreateHandshake ep create =
      Except.error ("Upload initialization failed (HTTP " ++ toString create.status ++ ")",
        some (if create.body = "" then create.statusText else create.body)) := by
    unfold tusCreateHandshake
    rw [if_pos hcreate]
  have hmanual : uploadToNasRoute s userId jobId (some ep) true fileSize create resp fuel =
      ⟨s, RouteResp.err 400
          ("Upload initialization failed (HTTP " ++ toString create.status ++ ")")
          (some (if create.body = "" then create.statusText else create.body)), []⟩ := by
    unfold uploadToNasRoute
    rw [hget]
    simp [hown, hst, hup, hhs]
  have hget2 : getDownloadJob (fetchCompleteAction s jobId fp fileSize) jobId =
      some { j with status := "completed", progress := 100,
                    filePath := some fp, fileSize := some fileSize } := by
    unfold fetchCompleteAction
    rw [getDownloadJob_update_self, hget]
    rfl
  have hauto : autoUploadToNas (fetchCompleteAction s jobId fp fileSize) jobId true
      fileSize create resp fuel =
      (applyEvs jobId (fetchCompleteAction s jobId fp fileSize)
        [Ev.persistProgress "uploading" 90],
       [Ev.persistProgress "uploading" 90],
       Except.error ("TUS create failed: " ++ toString create.status)) := by
    unfold autoUploadToNas
    rw [hget2]
    simp [hcreate]
  have hcontains : containsSub
      ("Upload initialization failed (HTTP " ++ toString create.status ++ ")")
      (toString create.status) = true := by
    have := containsSub_middle ("Upload initialization failed (HTTP ")
      (toString create.status) (")")
    simpa using this
  refine ⟨hmanual, hcontains, by rw [hauto], by rw [hauto], ?_⟩
  have hfin : processDownloadFinish s jobId (some ⟨some ep, 1⟩) true fp fileSize
      create resp fuel =
      applyEvs jobId (fetchCompleteAction s jobId fp fileSize)
        [Ev.persistProgress "uploading" 90] := by
    unfold processDownloadFinish
    rw [hauto]
    rfl
  rw [hfin]
  show (getDownloadJob (updateDownloadJob _ _ _) _).map _ = _
  rw [getDownloadJob_update_self, hget2]
  rfl

/-- Witness for the amended C3 at a concrete input: create answered 500. -/
theorem c3_amended_witness :
    uploadToNasRoute [("j1", mkJob "u1" "completed")] "u1" "j1"
        (some "https://nas.example") true 100 ⟨500, "Internal Server Error", none, ""⟩
        (fun _ => ⟨204, none⟩) 1 =
      ⟨[("j1", mkJob "u1" "completed")],
        RouteResp.err 400
          ("Upload initialization failed (HTTP " ++ toString (500 : Nat) ++ ")")
          (some "Internal Server Error"), []⟩ ∧
    containsSub ("Upload initialization failed (HTTP " ++ toString (500 : Nat) ++ ")")
      (toString (500 : Nat)) = true := by
  have h := c3_amended_create_failure [("j1", mkJob "u1" "completed")] "u1" "j1"
    (mkJob "u1" "completed") "https://nas.example" "/downloads/j1.mp4" 100 1
    ⟨500, "Internal Server Error", none, ""⟩ (fun _ => ⟨204, none⟩)
    (by decide) (by decide) rfl rfl (by decide)
  exact ⟨h.1, h.2.1⟩

/-- C7: the upload creation handshake POSTs to the normalized "/files/"
endpoint with exactly the Tus-Resumable 1.0.0, Upload-Length and
Upload-Metadata "filename base64" headers; success requires HTTP 201 with a
Location header, resolved to an absolute session URL (an absolute http:
location upgraded to https:, an https: location kept, a relative location
resolved against the endpoint); a non-201 status aborts with the status and
body surfaced as error detail, and a missing Location aborts as well. -/
theorem c7_create_handshake (endpointCfg : String) (fileSize : Nat) (b64 : String)
    (r : CreateResponse) :
    (tusCreateRequest endpointCfg fileSize b64).method = "POST" ∧
    (tusCreateRequest endpointCfg fileSize b64).url = normalizeEndpoint endpointCfg ∧
    endsWithStr (normalizeEndpoint endpointCfg) "/files/" = true ∧
    (tusCreateRequest endpointCfg fileSize b64).headers =
      [("Tus-Resumable", "1.0.0"), ("Upload-Length", toString fileSize),
       ("Upload-Metadata", "filename " ++ b64)] ∧
    (r.status ≠ 201 →
      tusCreateHandshake endpointCfg r =
        Except.error ("Upload initialization failed (HTTP " ++ toString r.status ++ ")",
          some (if r.body = "" then r.statusText else r.body)) ∧
      containsSub ("Upload initialization failed (HTTP " ++ toString r.status ++ ")")
        (toString r.status) = true) ∧
    (r.status = 201 → r.location = none →
      tusCreateHandshake endpointCfg r =
        Except.error ("Server did not return upload location", none)) ∧
    (∀ loc, r.status = 201 → r.location = some loc →
      tusCreateHandshake endpointCfg r =
        Except.ok (resolveUploadUrl (normalizeEndpoint endpointCfg) loc) ∧
      (startsWithStr loc "http://" = true →
        resolveUploadUrl (normalizeEndpoint endpointCfg) loc = "https:" ++ loc.drop 5) ∧
      (startsWithStr loc "https://" = true →
        resolveUploadUrl (normalizeEndpoint endpointCfg) loc = loc) ∧
      (startsWithStr loc "http://" = false → startsWithStr loc "https://" = false →
        resolveUploadUrl (normalizeEndpoint endpointCfg) loc =
          urlResolve (normalizeEndpoint endpointCfg) loc)) := by
  refine ⟨rfl, rfl, normalizeEndpoint_endsWith endpointCfg, rfl, ?_, ?_, ?_⟩
  · intro hne
    constructor
    · unfold tusCreateHandshake
      rw [if_pos hne]
    · have := containsSub_middle ("Upload initialization failed (HTTP ")
        (toString r.status) (")")
      simpa using this
  · intro h201 hloc
    unfold tusCreateHandshake
    rw [if_neg (by simp [h201]), hloc]
  · intro loc h201 hloc
    refine ⟨?_, ?_, ?_, ?_⟩
    · unfold tusCreateHandshake
      rw [if_neg (by simp [h201]), hloc]
    · intro hpre
      have hp : startsWithStr loc "http:" = true := startsWith_http_of_http_slash loc hpre
      unfold resolveUploadUrl forceHttps
      rw [hpre]
      simp [hp]
    · intro hpre
      have hp : startsWithStr loc "http:" = false := not_http_prefix_of_https loc hpre
      unfold resolveUploadUrl forceHttps
      rw [hpre]
      simp [hp]
    · intro h1 h2
      unfold resolveUploadUrl
      rw [h1, h2]
      rfl

/-- Witness for C7 at concrete inputs: the handshake request for a 100-byte
artifact, a 500 response, a 201 response without Location, and a 201
response with a relative Location. -/
theorem c7_witness :
    (tusCreateRequest "https://nas.example" 100 "dGVzdC5tcDQ=").headers =
      [("Tus-Resumable", "1.0.0"), ("Upload-Length", toString (100 : Nat)),
       ("Upload-Metadata", "filename " ++ "dGVzdC5tcDQ=")] ∧
    endsWithStr (normalizeEndpoint "https://nas.example") "/files/" = true ∧
    tusCreateHandshake "https://nas.example" ⟨500, "Internal Server Error", none, "busy"⟩ =
      Except.error ("Upload initialization failed (HTTP " ++ toString (500 : Nat) ++ ")",
        some "busy") ∧
    tusCreateHandshake "https://nas.example" ⟨201, "Created", none, ""⟩ =
      Except.error ("Server did not return upload location", none) ∧
    tusCreateHandshake "https://nas.example" ⟨201, "Created", some "abc123", ""⟩ =
      Except.ok (resolveUploadUrl (normalizeEndpoint "https://nas.example") "abc123") :=
  ⟨(c7_create_handshake "https://nas.example" 100 "dGVzdC5tcDQ="
      ⟨500, "Internal Server Error", none, "busy"⟩).2.2.2.1,
   (c7_create_handshake "https://nas.example" 100 "dGVzdC5tcDQ="
      ⟨500, "Internal Server Error", none, "busy"⟩).2.2.1,
   by
     have h := (c7_create_handshake "https://nas.example" 100 "dGVzdC5tcDQ="
       ⟨500, "Internal Server Error", none, "busy"⟩).2.2.2.2.1 (by decide)
     simpa using h.1,
   (c7_create_handshake "https://nas.example" 100 "dGVzdC5tcDQ="
      ⟨201, "Created", none, ""⟩).2.2.2.2.2.1 rfl rfl,
   ((c7_create_handshake "https://nas.example" 100 "dGVzdC5tcDQ="
      ⟨201, "Created", some "abc123", ""⟩).2.2.2.2.2.2 "abc123" rfl rfl).1⟩

end TubeLoader
